import Mathlib

/-!
Shallow embedding of the Solana escrow program
(src/program/src/instruction.rs and src/program/src/processor.rs).

Machine integers (u64) are modelled as Nat; overflow only matters at the
single `checked_add` in the withdraw handler, modelled explicitly against
2^64.  Account data is modelled at the level of the typed structures the
program manipulates; the effects of a handler (cross-program invocations,
record mutation, lamport moves) are returned as an explicit result value,
and an `Except.error` result models the host aborting the invocation with
no state change (the runtime discards every write of a failed invocation).
-/

namespace SolEscrow

/-- u64 modulus; `checked_add` fails when the mathematical sum reaches it. -/
def U64_MOD : Nat := 2 ^ 64

/-- Rust `u64::checked_add`: `some (a + b)` unless the sum overflows u64. -/
def checkedAddU64 (a b : Nat) : Option Nat :=
  if a + b < U64_MOD then some (a + b) else none

/-- Union of `ProgramError` variants and the repository's `EscrowError`
variants used by the two source files.  `EscrowError` itself lives in the
missing `error.rs`; its variants (`InvalidInstruction`, `NotRentExempt`,
`ExpectedAmountMismatch`, `AmountOverflow`) are taken from the spec's error
taxonomy (§7).  `UninitializedAccount` is the standard `Pack::unpack`
failure for a record whose flag is clear. -/
inductive ProgramError where
  | MissingRequiredSignature
  | InvalidAccountData
  | AccountAlreadyInitialized
  | UninitializedAccount
  | InvalidInstruction
  | NotRentExempt
  | ExpectedAmountMismatch
  | AmountOverflow
deriving DecidableEq, Repr

/-! ## Instruction decoder (src/program/src/instruction.rs) -/

/-- The two typed operations produced by the decoder. -/
inductive EscrowInstruction where
  | InitEscrow (amount : Nat)
  | Withdraw (amount : Nat)
deriving DecidableEq, Repr

/-- `u64::from_le_bytes` on a list of byte values (little-endian). -/
def u64FromLeBytes (bs : List Nat) : Nat :=
  bs.foldr (fun b acc => b + 256 * acc) 0

/-- `EscrowInstruction::unpack_amount`: `input.get(..8)` is `None` when
fewer than 8 bytes remain, otherwise the first 8 bytes are decoded
little-endian; trailing bytes are not inspected. -/
def unpack_amount (input : List Nat) : Except ProgramError Nat :=
  if input.length < 8 then Except.error ProgramError.InvalidInstruction
  else Except.ok (u64FromLeBytes (input.take 8))

/-- `EscrowInstruction::unpack`: split off the tag byte, dispatch on it. -/
def EscrowInstruction.unpack (input : List Nat) :
    Except ProgramError EscrowInstruction :=
  match input with
  | [] => Except.error ProgramError.InvalidInstruction
  | tag :: rest =>
    if tag = 0 then (unpack_amount rest).map EscrowInstruction.InitEscrow
    else if tag = 1 then (unpack_amount rest).map EscrowInstruction.Withdraw
    else Except.error ProgramError.InvalidInstruction

/-! ## Escrow record (crate::state::Escrow, spec §3) -/

/-- The persisted escrow record.  `state.rs` is not under src/; the five
fields and their meaning are modelled from the spec's data model (§3) and
record layout (§6), matching the field names used by `processor.rs`.
Addresses (32-byte pubkeys) are modelled as Nat. -/
structure Escrow where
  is_initialized : Bool
  initializer_pubkey : Nat
  temp_token_account_pubkey : Nat
  withdrawer_pubkey : Nat
  deposited_amount : Nat
deriving DecidableEq, Repr

/-- Modelled from the spec: `Escrow::unpack` (the `Pack` trait impl in the
missing `state.rs`) rejects a record whose flag is clear — spec §3: a
record is either fully zeroed/uninitialized or live with all fields set. -/
def Escrow.unpack (e : Escrow) : Except ProgramError Escrow :=
  if e.is_initialized then Except.ok e
  else Except.error ProgramError.UninitializedAccount

/-! ## Address derivation and rent (host collaborators, spec §1/§3) -/

/-- The fixed domain-separation seed `b"escrow"` as byte values. -/
def escrowSeed : List Nat := [101, 115, 99, 114, 111, 119]

/-- Modelled from the spec: `Pubkey::find_program_address` is the host
SDK's deterministic, hash-based address derivation from (seeds, program
id), out of scope per §1; modelled here as an explicit deterministic
mixing function of the seeds and the program id, returning the derived
address and a bump nonce. -/
def find_program_address (seeds : List Nat) (programId : Nat) : Nat × Nat :=
  ((seeds.foldl (fun a b => a * 257 + b + 1) 1) * 4294967296 + programId, 255)

/-- Modelled from the spec: the rent sysvar supplies the exemption
threshold (§4.2 input 5); the host's computation of the minimum balance
from the data length is out of scope, so it is carried as a function. -/
structure Rent where
  minimum_balance : Nat → Nat

/-- `Rent::is_exempt(balance, data_len)`. -/
def Rent.is_exempt (r : Rent) (balance dataLen : Nat) : Bool :=
  r.minimum_balance dataLen ≤ balance

/-! ## Cross-program invocations issued to the token program -/

/-- The three spl-token instructions the program constructs, recorded with
the accounts and amount the source passes.  Every transfer/close carries
the authority the source names (the derived pda). -/
inductive TokenInstruction where
  | setAuthority (tokenProgram account newAuthority currentAuthority : Nat)
  | transfer (tokenProgram source destination authority : Nat) (amount : Nat)
  | closeAccount (tokenProgram account destination authority : Nat)
deriving DecidableEq, Repr

/-- The authorizing party an issued token instruction names: the current
owner for `set_authority`, the signing authority for `transfer` and
`close_account`. -/
def TokenInstruction.authority : TokenInstruction → Nat
  | TokenInstruction.setAuthority _ _ _ cur => cur
  | TokenInstruction.transfer _ _ _ auth _ => auth
  | TokenInstruction.closeAccount _ _ _ auth => auth

/-! ## Initialize handler (Processor::process_init_escrow) -/

/-- The positional accounts of an Initialize call, with the fields of each
the handler can read.  `temp_token_amount` is the temp holding's token
balance: the source receives the account but never unpacks it, so the
field is present and (provably) unread. -/
structure InitAccounts where
  initializer_key : Nat
  initializer_is_signer : Bool
  temp_token_account_key : Nat
  temp_token_amount : Nat
  withdrawer_key : Nat
  escrow_lamports : Nat
  escrow_data_len : Nat
  escrow_data : Escrow
  rent : Rent
  token_program_key : Nat

/-- Outcome of a successful Initialize: the packed record and the
cross-program invocations issued, in order. -/
structure InitResult where
  escrow_data : Escrow
  instructions : List TokenInstruction
deriving DecidableEq, Repr

/-- `Processor::process_init_escrow`, line for line: signer check, rent
check, `unpack_unchecked` + initialized check, populate and pack the
record, derive the pda, build and invoke `set_authority`. -/
def process_init_escrow (accounts : InitAccounts) (amount : Nat)
    (program_id : Nat) : Except ProgramError InitResult :=
  if !accounts.initializer_is_signer then
    Except.error ProgramError.MissingRequiredSignature
  else if !(accounts.rent.is_exempt accounts.escrow_lamports
      accounts.escrow_data_len) then
    Except.error ProgramError.NotRentExempt
  else if accounts.escrow_data.is_initialized then
    Except.error ProgramError.AccountAlreadyInitialized
  else
    let escrow_info : Escrow :=
      { is_initialized := true
        initializer_pubkey := accounts.initializer_key
        temp_token_account_pubkey := accounts.temp_token_account_key
        withdrawer_pubkey := accounts.withdrawer_key
        deposited_amount := amount }
    let pda := (find_program_address escrowSeed program_id).1
    Except.ok
      { escrow_data := escrow_info
        instructions := [TokenInstruction.setAuthority
            accounts.token_program_key accounts.temp_token_account_key
            pda accounts.initializer_key] }

/-! ## Withdraw handler (Processor::process_withdraw) -/

/-- The positional accounts of a Withdraw call.  `pda_account_key` is the
seventh account (the pda reference): the source takes it from the iterator
and passes it to `invoke_signed` but never compares its key to anything. -/
structure WithdrawAccounts where
  taker_key : Nat
  taker_is_signer : Bool
  takers_receive_key : Nat
  temp_token_account_key : Nat
  temp_token_amount : Nat
  initializer_key : Nat
  initializer_lamports : Nat
  escrow_lamports : Nat
  escrow_data : Escrow
  token_program_key : Nat
  pda_account_key : Nat
deriving DecidableEq, Repr

/-- Outcome of a successful Withdraw: invocations issued in order, the
record's final data (`none` = storage zeroed / record destroyed), and the
final lamport balances of the record and the initializer's main account. -/
structure WithdrawResult where
  instructions : List TokenInstruction
  escrow_data : Option Escrow
  escrow_lamports : Nat
  initializer_lamports : Nat
deriving DecidableEq, Repr

/-- `Processor::process_withdraw`, line for line: signer check; unpack the
temp token account and derive the pda; live-balance check
(`ExpectedAmountMismatch`); `Escrow::unpack`; the three identity checks
(each `InvalidAccountData`); then the two-branch settlement.  In the full
branch the source performs the `checked_add` after the two
`invoke_signed` calls; the host discards every effect of an invocation
that then fails, so the overflow test is modelled before the effects are
returned — an overflowing call yields `AmountOverflow` and no state
change either way. -/
def process_withdraw (accounts : WithdrawAccounts) (amount_to_withdraw : Nat)
    (program_id : Nat) : Except ProgramError WithdrawResult :=
  if !accounts.taker_is_signer then
    Except.error ProgramError.MissingRequiredSignature
  else
    let pda := (find_program_address escrowSeed program_id).1
    if amount_to_withdraw > accounts.temp_token_amount then
      Except.error ProgramError.ExpectedAmountMismatch
    else
      match Escrow.unpack accounts.escrow_data with
      | Except.error e => Except.error e
      | Except.ok escrow_info =>
        if escrow_info.temp_token_account_pubkey ≠
            accounts.temp_token_account_key then
          Except.error ProgramError.InvalidAccountData
        else if escrow_info.initializer_pubkey ≠ accounts.initializer_key then
          Except.error ProgramError.InvalidAccountData
        else if escrow_info.withdrawer_pubkey ≠ accounts.taker_key then
          Except.error ProgramError.InvalidAccountData
        else if amount_to_withdraw < escrow_info.deposited_amount then
          Except.ok
            { instructions := [TokenInstruction.transfer
                accounts.token_program_key accounts.temp_token_account_key
                accounts.takers_receive_key pda amount_to_withdraw]
              escrow_data := some { escrow_info with
                deposited_amount :=
                  escrow_info.deposited_amount - amount_to_withdraw }
              escrow_lamports := accounts.escrow_lamports
              initializer_lamports := accounts.initializer_lamports }
        else
          match checkedAddU64 accounts.initializer_lamports
              accounts.escrow_lamports with
          | none => Except.error ProgramError.AmountOverflow
          | some newLamports =>
            Except.ok
              { instructions := [
                  TokenInstruction.transfer accounts.token_program_key
                    accounts.temp_token_account_key
                    accounts.takers_receive_key pda
                    accounts.temp_token_amount,
                  TokenInstruction.closeAccount accounts.token_program_key
                    accounts.temp_token_account_key accounts.initializer_key
                    pda]
                escrow_data := none
                escrow_lamports := 0
                initializer_lamports := newLamports }

/-! ## Record reachability across the two operations -/

/-- The escrow records producible by the program: created by a successful
Initialize, or the surviving record of a successful Withdraw on a
reachable record. -/
inductive ReachableRecord : Escrow → Prop where
  | ofInit : ∀ (accounts : InitAccounts) (amount program_id : Nat)
      (res : InitResult), process_init_escrow accounts amount program_id =
        Except.ok res → ReachableRecord res.escrow_data
  | ofWithdraw : ∀ (accounts : WithdrawAccounts)
      (amount program_id : Nat) (res : WithdrawResult) (r : Escrow),
      ReachableRecord accounts.escrow_data →
      process_withdraw accounts amount program_id = Except.ok res →
      res.escrow_data = some r → ReachableRecord r

/-! ## Sample values used to instantiate the theorems concretely -/

/-- A fully zeroed (uninitialized) escrow record. -/
def blankEscrow : Escrow :=
  { is_initialized := false, initializer_pubkey := 0,
    temp_token_account_pubkey := 0, withdrawer_pubkey := 0,
    deposited_amount := 0 }

/-- A live escrow record binding initializer 10, temp holding 20 and
withdrawer 30, with deposited amount `d`. -/
def liveEscrow (d : Nat) : Escrow :=
  { is_initialized := true, initializer_pubkey := 10,
    temp_token_account_pubkey := 20, withdrawer_pubkey := 30,
    deposited_amount := d }

/-- A rent configuration with a flat 90-lamport exemption threshold. -/
def sampleRent : Rent := { minimum_balance := fun _ => 90 }

/-- A concrete Initialize account list; `t` is the temp holding's token
balance. -/
def sampleInitAccounts (t : Nat) : InitAccounts :=
  { initializer_key := 10, initializer_is_signer := true,
    temp_token_account_key := 20, temp_token_amount := t,
    withdrawer_key := 30, escrow_lamports := 100, escrow_data_len := 105,
    escrow_data := blankEscrow, rent := sampleRent,
    token_program_key := 50 }

/-- A concrete Withdraw account list matching `liveEscrow d`; `bal` is the
temp holding's live token balance and `k` the supplied pda account. -/
def sampleWithdrawAccounts (d bal k : Nat) : WithdrawAccounts :=
  { taker_key := 30, taker_is_signer := true, takers_receive_key := 40,
    temp_token_account_key := 20, temp_token_amount := bal,
    initializer_key := 10, initializer_lamports := 5, escrow_lamports := 7,
    escrow_data := liveEscrow d, token_program_key := 50,
    pda_account_key := k }

/-! ## Claim theorems -/

/-- C7 counterexample: the claim says every input whose total length is not
exactly 9 bytes is rejected, but the decoder accepts a 10-byte input (the
source reads `input.get(..8)` and never inspects trailing bytes): a
10-byte buffer with tag 0 decodes to `InitEscrow 1`. -/
theorem unpack_length_ten_cex :
    List.length [0, 1, 0, 0, 0, 0, 0, 0, 0, 0] ≠ 9 ∧
    EscrowInstruction.unpack [0, 1, 0, 0, 0, 0, 0, 0, 0, 0] =
      Except.ok (EscrowInstruction.InitEscrow 1) := by
  constructor
  · decide
  · rfl

/-- C7 (amended): tag 0 with at least 8 following bytes decodes to
`InitEscrow` of the little-endian value of bytes 1..8, tag 1 likewise to
`Withdraw`; any other tag, an empty input, or fewer than 8 bytes after the
tag fails with `InvalidInstruction`; bytes beyond position 8 are ignored,
so inputs longer than 9 bytes are accepted. -/
theorem unpack_spec (tag : Nat) (rest : List Nat) :
    (tag = 0 → 8 ≤ rest.length →
      EscrowInstruction.unpack (tag :: rest) =
        Except.ok (EscrowInstruction.InitEscrow (u64FromLeBytes (rest.take 8)))) ∧
    (tag = 1 → 8 ≤ rest.length →
      EscrowInstruction.unpack (tag :: rest) =
        Except.ok (EscrowInstruction.Withdraw (u64FromLeBytes (rest.take 8)))) ∧
    (tag ≠ 0 → tag ≠ 1 →
      EscrowInstruction.unpack (tag :: rest) =
        Except.error ProgramError.InvalidInstruction) ∧
    (rest.length < 8 →
      EscrowInstruction.unpack (tag :: rest) =
        Except.error ProgramError.InvalidInstruction) ∧
    EscrowInstruction.unpack [] = Except.error ProgramError.InvalidInstruction := by
  refine ⟨?_, ?_, ?_, ?_, rfl⟩
  · intro h0 hlen
    simp [EscrowInstruction.unpack, h0, unpack_amount, Nat.not_lt.mpr hlen, Except.map]
  · intro h1 hlen
    simp [EscrowInstruction.unpack, h1, unpack_amount, Nat.not_lt.mpr hlen, Except.map]
  · intro h0 h1
    simp [EscrowInstruction.unpack, h0, h1]
  · intro hlen
    rcases Nat.eq_zero_or_pos tag with h0 | hpos
    · simp [EscrowInstruction.unpack, h0, unpack_amount, hlen, Except.map]
    · rcases Nat.lt_or_ge tag 2 with h2 | h2
      · have h1 : tag = 1 := by omega
        simp [EscrowInstruction.unpack, h1, unpack_amount, hlen, Except.map]
      · have h0 : tag ≠ 0 := by omega
        have h1 : tag ≠ 1 := by omega
        simp [EscrowInstruction.unpack, h0, h1]

/-- C7 witness: a concrete 9-byte Withdraw instruction decodes. -/
theorem unpack_spec_witness :
    EscrowInstruction.unpack [1, 2, 0, 0, 0, 0, 0, 0, 0] =
      Except.ok (EscrowInstruction.Withdraw 2) := by
  exact (unpack_spec 1 [2, 0, 0, 0, 0, 0, 0, 0]).2.1 rfl (by decide)

/-- C8: a valid Initialize call (initializer signed, record rent-exempt,
record uninitialized) succeeds; the packed record has the flag set, the
three identities of accounts 1, 2 and 3 and the instruction amount; and
the single issued invocation is a `set_authority` on the temp holding
naming the derived pda (from the fixed seed and the program id) as new
owner, signed by the initializer as current owner. -/
theorem process_init_escrow_ok (accounts : InitAccounts) (amount pid : Nat)
    (hs : accounts.initializer_is_signer = true)
    (hrent : accounts.rent.is_exempt accounts.escrow_lamports
      accounts.escrow_data_len = true)
    (huninit : accounts.escrow_data.is_initialized = false) :
    process_init_escrow accounts amount pid = Except.ok
      { escrow_data :=
          { is_initialized := true
            initializer_pubkey := accounts.initializer_key
            temp_token_account_pubkey := accounts.temp_token_account_key
            withdrawer_pubkey := accounts.withdrawer_key
            deposited_amount := amount }
        instructions := [TokenInstruction.setAuthority
            accounts.token_program_key accounts.temp_token_account_key
            (find_program_address escrowSeed pid).1
            accounts.initializer_key] } := by
  simp [process_init_escrow, hs, hrent, huninit]

/-- C8 witness: a concrete valid Initialize call evaluated. -/
theorem process_init_escrow_ok_witness :
    process_init_escrow (sampleInitAccounts 1000) 1000 7 = Except.ok
      { escrow_data := liveEscrow 1000,
        instructions := [TokenInstruction.setAuthority 50 20
          (find_program_address escrowSeed 7).1 10] } := by
  exact process_init_escrow_ok (sampleInitAccounts 1000) 1000 7 rfl
    (by decide) rfl

/-- C10: the Initialize handler never reads the temp holding's token
balance — the outcome is identical for every value of that balance — and
for every amount (0 included, amounts above the balance included) a call
passing the signer, rent and uninitialized checks succeeds with
`deposited_amount` set to the instruction amount. -/
theorem process_init_escrow_ignores_balance (accounts : InitAccounts)
    (amount pid t : Nat)
    (hs : accounts.initializer_is_signer = true)
    (hrent : accounts.rent.is_exempt accounts.escrow_lamports
      accounts.escrow_data_len = true)
    (huninit : accounts.escrow_data.is_initialized = false) :
    process_init_escrow { accounts with temp_token_amount := t } amount pid =
      process_init_escrow accounts amount pid ∧
    ∃ res, process_init_escrow accounts amount pid = Except.ok res ∧
      res.escrow_data.deposited_amount = amount := by
  refine ⟨rfl, ?_⟩
  refine ⟨⟨⟨true, accounts.initializer_key, accounts.temp_token_account_key,
    accounts.withdrawer_key, amount⟩,
    [TokenInstruction.setAuthority accounts.token_program_key
      accounts.temp_token_account_key (find_program_address escrowSeed pid).1
      accounts.initializer_key]⟩, ?_, rfl⟩
  simp [process_init_escrow, hs, hrent, huninit]

/-- C10 witness: amount 9999 far above the temp balance 3, and the
independence conclusion instantiated concretely. -/
theorem process_init_escrow_ignores_balance_witness :
    process_init_escrow (sampleInitAccounts 77) 9999 7 =
      process_init_escrow (sampleInitAccounts 3) 9999 7 := by
  exact (process_init_escrow_ignores_balance (sampleInitAccounts 3)
    9999 7 77 rfl (by decide) rfl).1

/-- Inverting the modelled `Escrow::unpack`: success returns the record
itself and implies its flag is set. -/
theorem Escrow_unpack_ok {e r : Escrow} (h : Escrow.unpack e = Except.ok r) :
    r = e ∧ e.is_initialized = true := by
  unfold Escrow.unpack at h
  split at h
  · exact ⟨(Except.ok.injEq _ _).mp h |>.symm, by assumption⟩
  · cases h

/-- C1: whenever any of the three identities stored in the record differs
from the corresponding supplied account, a Withdraw call never succeeds —
so no token instruction is issued and no account is mutated — and a call
that reaches the identity checks (taker signed, requested amount within
the live balance, record initialized) fails with exactly
`InvalidAccountData`. -/
theorem process_withdraw_identity_gate (accounts : WithdrawAccounts)
    (amount pid : Nat)
    (hmis : accounts.escrow_data.temp_token_account_pubkey ≠
        accounts.temp_token_account_key ∨
      accounts.escrow_data.initializer_pubkey ≠ accounts.initializer_key ∨
      accounts.escrow_data.withdrawer_pubkey ≠ accounts.taker_key) :
    (∀ res, process_withdraw accounts amount pid ≠ Except.ok res) ∧
    (accounts.taker_is_signer = true →
      amount ≤ accounts.temp_token_amount →
      accounts.escrow_data.is_initialized = true →
      process_withdraw accounts amount pid =
        Except.error ProgramError.InvalidAccountData) := by
  have key : accounts.taker_is_signer = true →
      amount ≤ accounts.temp_token_amount →
      accounts.escrow_data.is_initialized = true →
      process_withdraw accounts amount pid =
        Except.error ProgramError.InvalidAccountData := by
    intro hs hle hinit
    rcases hmis with h | h | h
    · simp [process_withdraw, hs, Nat.not_lt.mpr hle, Escrow.unpack, hinit, h]
    · by_cases h1 : accounts.escrow_data.temp_token_account_pubkey =
          accounts.temp_token_account_key
      · simp [process_withdraw, hs, Nat.not_lt.mpr hle, Escrow.unpack, hinit,
          h1, h]
      · simp [process_withdraw, hs, Nat.not_lt.mpr hle, Escrow.unpack, hinit,
          h1]
    · by_cases h1 : accounts.escrow_data.temp_token_account_pubkey =
          accounts.temp_token_account_key
      · by_cases h2 : accounts.escrow_data.initializer_pubkey =
            accounts.initializer_key
        · simp [process_withdraw, hs, Nat.not_lt.mpr hle, Escrow.unpack,
            hinit, h1, h2, h]
        · simp [process_withdraw, hs, Nat.not_lt.mpr hle, Escrow.unpack,
            hinit, h1, h2]
      · simp [process_withdraw, hs, Nat.not_lt.mpr hle, Escrow.unpack, hinit,
          h1]
  refine ⟨?_, key⟩
  intro res hres
  by_cases hs : accounts.taker_is_signer
  · by_cases hamt : accounts.temp_token_amount < amount
    · simp [process_withdraw, hs, hamt] at hres
    · by_cases hinit : accounts.escrow_data.is_initialized
      · rw [key hs (Nat.not_lt.mp hamt) hinit] at hres
        cases hres
      · simp [process_withdraw, hs, hamt, Escrow.unpack, hinit] at hres
  · simp [process_withdraw, Bool.eq_false_iff.mpr hs] at hres

/-- C1 witness: the record names withdrawer 30 but the signer is 31; the
call fails with `InvalidAccountData`. -/
theorem process_withdraw_identity_gate_witness :
    process_withdraw
      { sampleWithdrawAccounts 1000 1000 0 with taker_key := 31 } 100 7 =
      Except.error ProgramError.InvalidAccountData := by
  exact (process_withdraw_identity_gate
    { sampleWithdrawAccounts 1000 1000 0 with taker_key := 31 } 100 7
    (Or.inr (Or.inr (by decide)))).2 rfl (by decide) rfl

/-- C5: a signed Withdraw requesting more than the temp holding's live
token balance fails with `ExpectedAmountMismatch`; no other hypothesis is
needed — in particular the record may be uninitialized or mismatch every
identity — which shows this check precedes the three identity
cross-checks; the error result means the invocation aborts with no state
change. -/
theorem process_withdraw_balance_check_first (accounts : WithdrawAccounts)
    (amount pid : Nat) (hs : accounts.taker_is_signer = true)
    (hgt : accounts.temp_token_amount < amount) :
    process_withdraw accounts amount pid =
      Except.error ProgramError.ExpectedAmountMismatch := by
  simp [process_withdraw, hs, hgt]

/-- C5 witness: requesting 500 against a live balance of 400, with a
mismatching signer identity, still yields `ExpectedAmountMismatch`. -/
theorem process_withdraw_balance_check_first_witness :
    process_withdraw
      { sampleWithdrawAccounts 1000 400 0 with taker_key := 31 } 500 7 =
      Except.error ProgramError.ExpectedAmountMismatch := by
  exact process_withdraw_balance_check_first
    { sampleWithdrawAccounts 1000 400 0 with taker_key := 31 } 500 7 rfl
    (by decide)

/-- C2: a validated Withdraw whose requested amount is at least the
record's `deposited_amount` takes the full-settlement branch: it issues a
transfer of the temp holding's entire current live balance (not the
recorded amount) to the taker's receiving holding, then a close of the
temp holding with the initializer's main account as rent destination, and
finishes with the record's data zeroed (`none`), the record's lamports 0,
and the initializer's balance increased by the record's prior lamports. -/
theorem process_withdraw_full_settlement (accounts : WithdrawAccounts)
    (amount pid : Nat)
    (hs : accounts.taker_is_signer = true)
    (hle : amount ≤ accounts.temp_token_amount)
    (hinit : accounts.escrow_data.is_initialized = true)
    (h1 : accounts.escrow_data.temp_token_account_pubkey =
      accounts.temp_token_account_key)
    (h2 : accounts.escrow_data.initializer_pubkey = accounts.initializer_key)
    (h3 : accounts.escrow_data.withdrawer_pubkey = accounts.taker_key)
    (hfull : accounts.escrow_data.deposited_amount ≤ amount)
    (hov : accounts.initializer_lamports + accounts.escrow_lamports <
      U64_MOD) :
    process_withdraw accounts amount pid = Except.ok
      { instructions := [
          TokenInstruction.transfer accounts.token_program_key
            accounts.temp_token_account_key accounts.takers_receive_key
            (find_program_address escrowSeed pid).1
            accounts.temp_token_amount,
          TokenInstruction.closeAccount accounts.token_program_key
            accounts.temp_token_account_key accounts.initializer_key
            (find_program_address escrowSeed pid).1],
        escrow_data := none,
        escrow_lamports := 0,
        initializer_lamports :=
          accounts.initializer_lamports + accounts.escrow_lamports } := by
  simp [process_withdraw, hs, Nat.not_lt.mpr hle, Escrow.unpack, hinit, h1,
    h2, h3, Nat.not_lt.mpr hfull, checkedAddU64, hov]

/-- C2 witness: a full claim of 1000 against deposited 1000 and live
balance 1000, evaluated concretely (rent lamports 5 + 7 = 12). -/
theorem process_withdraw_full_settlement_witness :
    process_withdraw (sampleWithdrawAccounts 1000 1000 0) 1000 7 =
      Except.ok
      { instructions := [
          TokenInstruction.transfer 50 20 40
            (find_program_address escrowSeed 7).1 1000,
          TokenInstruction.closeAccount 50 20 10
            (find_program_address escrowSeed 7).1],
        escrow_data := none,
        escrow_lamports := 0,
        initializer_lamports := 12 } := by
  exact process_withdraw_full_settlement (sampleWithdrawAccounts 1000 1000 0)
    1000 7 rfl (by decide) rfl rfl rfl rfl (by decide) (by decide)

/-- C3: a validated Withdraw whose requested amount is strictly below the
record's `deposited_amount` takes the partial branch: it issues exactly
one transfer, of exactly the requested amount, to the taker's receiving
holding, authorized by the derived pda; the record is persisted with
`deposited_amount` decreased by the requested amount; no close is issued
and all lamport balances are unchanged. -/
theorem process_withdraw_part_settlement (accounts : WithdrawAccounts)
    (amount pid : Nat)
    (hs : accounts.taker_is_signer = true)
    (hle : amount ≤ accounts.temp_token_amount)
    (hinit : accounts.escrow_data.is_initialized = true)
    (h1 : accounts.escrow_data.temp_token_account_pubkey =
      accounts.temp_token_account_key)
    (h2 : accounts.escrow_data.initializer_pubkey = accounts.initializer_key)
    (h3 : accounts.escrow_data.withdrawer_pubkey = accounts.taker_key)
    (hlt : amount < accounts.escrow_data.deposited_amount) :
    process_withdraw accounts amount pid = Except.ok
      { instructions := [TokenInstruction.transfer accounts.token_program_key
          accounts.temp_token_account_key accounts.takers_receive_key
          (find_program_address escrowSeed pid).1 amount],
        escrow_data := some { accounts.escrow_data with
          deposited_amount :=
            accounts.escrow_data.deposited_amount - amount },
        escrow_lamports := accounts.escrow_lamports,
        initializer_lamports := accounts.initializer_lamports } := by
  simp [process_withdraw, hs, Nat.not_lt.mpr hle, Escrow.unpack, hinit, h1,
    h2, h3, hlt]

/-- C3 witness: a partial claim of 300 against deposited 1000 leaves a
live record with 700 and one 300-token transfer. -/
theorem process_withdraw_part_settlement_witness :
    process_withdraw (sampleWithdrawAccounts 1000 1000 0) 300 7 =
      Except.ok
      { instructions := [TokenInstruction.transfer 50 20 40
          (find_program_address escrowSeed 7).1 300],
        escrow_data := some (liveEscrow 700),
        escrow_lamports := 7,
        initializer_lamports := 5 } := by
  exact process_withdraw_part_settlement (sampleWithdrawAccounts 1000 1000 0)
    300 7 rfl (by decide) rfl rfl rfl rfl (by decide)

/-- C9: in the full-settlement branch the rent refund is an exact checked
u64 addition: if the initializer's balance plus the record's balance
reaches 2^64 the call fails with `AmountOverflow`, and any successful call
in this branch leaves the initializer's balance exactly the mathematical
sum and the record's balance 0. -/
theorem process_withdraw_refund_checked (accounts : WithdrawAccounts)
    (amount pid : Nat)
    (hs : accounts.taker_is_signer = true)
    (hle : amount ≤ accounts.temp_token_amount)
    (hinit : accounts.escrow_data.is_initialized = true)
    (h1 : accounts.escrow_data.temp_token_account_pubkey =
      accounts.temp_token_account_key)
    (h2 : accounts.escrow_data.initializer_pubkey = accounts.initializer_key)
    (h3 : accounts.escrow_data.withdrawer_pubkey = accounts.taker_key)
    (hfull : accounts.escrow_data.deposited_amount ≤ amount) :
    (U64_MOD ≤ accounts.initializer_lamports + accounts.escrow_lamports →
      process_withdraw accounts amount pid =
        Except.error ProgramError.AmountOverflow) ∧
    (∀ res, process_withdraw accounts amount pid = Except.ok res →
      res.initializer_lamports =
        accounts.initializer_lamports + accounts.escrow_lamports ∧
      res.escrow_lamports = 0) := by
  constructor
  · intro hovge
    simp [process_withdraw, hs, Nat.not_lt.mpr hle, Escrow.unpack, hinit, h1,
      h2, h3, Nat.not_lt.mpr hfull, checkedAddU64, Nat.not_lt.mpr hovge]
  · intro res hres
    by_cases hov : accounts.initializer_lamports + accounts.escrow_lamports <
        U64_MOD
    · simp [process_withdraw, hs, Nat.not_lt.mpr hle, Escrow.unpack, hinit,
        h1, h2, h3, Nat.not_lt.mpr hfull, checkedAddU64, hov] at hres
      rw [← hres]
      exact ⟨rfl, rfl⟩
    · simp [process_withdraw, hs, Nat.not_lt.mpr hle, Escrow.unpack, hinit,
        h1, h2, h3, Nat.not_lt.mpr hfull, checkedAddU64, hov] at hres

/-- C9 witness: with the initializer one lamport below u64::MAX and a
7-lamport record, the full claim fails with `AmountOverflow`. -/
theorem process_withdraw_refund_checked_witness :
    process_withdraw
      { sampleWithdrawAccounts 1000 1000 0 with
        initializer_lamports := 2 ^ 64 - 1 } 1000 7 =
      Except.error ProgramError.AmountOverflow := by
  exact (process_withdraw_refund_checked
    { sampleWithdrawAccounts 1000 1000 0 with
      initializer_lamports := 2 ^ 64 - 1 } 1000 7 rfl (by decide) rfl rfl
    rfl rfl (by decide)).1 (by decide)

/-- C6 counterexample: the claim says the supplied seventh account is
re-validated against the independently derived address and a mismatching
account is rejected, but the handler never compares it: here the seventh
account is 0, the derived address is not 0, and the call succeeds. -/
theorem process_withdraw_pda_unchecked_cex :
    (sampleWithdrawAccounts 1000 1000 0).pda_account_key ≠
      (find_program_address escrowSeed 7).1 ∧
    process_withdraw (sampleWithdrawAccounts 1000 1000 0) 100 7 =
      Except.ok
      { instructions := [TokenInstruction.transfer 50 20 40
          (find_program_address escrowSeed 7).1 100],
        escrow_data := some (liveEscrow 900),
        escrow_lamports := 7,
        initializer_lamports := 5 } := by
  constructor
  · decide
  · rfl

/-- C6 (amended): the handler recomputes the derived authority from the
fixed domain tag and the protocol identity and uses that recomputed
address as the authority of every issued instruction; the supplied
seventh account is never compared against it, so the handler's outcome is
identical for every value of that account and a mismatching seventh
account is not rejected. -/
theorem process_withdraw_pda_recomputed (accounts : WithdrawAccounts)
    (amount pid k : Nat) :
    process_withdraw { accounts with pda_account_key := k } amount pid =
      process_withdraw accounts amount pid ∧
    ∀ res, process_withdraw accounts amount pid = Except.ok res →
      ∀ ins ∈ res.instructions,
        ins.authority = (find_program_address escrowSeed pid).1 := by
  refine ⟨rfl, ?_⟩
  intro res hres ins hins
  simp only [process_withdraw] at hres
  split at hres
  · cases hres
  · split at hres
    · cases hres
    · split at hres
      · cases hres
      · split at hres
        · cases hres
        · split at hres
          · cases hres
          · split at hres
            · cases hres
            · split at hres
              · injection hres with h
                rw [← h] at hins
                simp only [List.mem_singleton] at hins
                rw [hins]
                rfl
              · split at hres
                · cases hres
                · injection hres with h
                  rw [← h] at hins
                  simp only [List.mem_cons, List.mem_singleton,
                    List.not_mem_nil, or_false] at hins
                  rcases hins with h2 | h2 <;> rw [h2] <;> rfl

/-- C6 amended witness: changing the seventh account from 0 to 999 leaves
the call's outcome unchanged, and the issued transfer's authority is the
recomputed derived address. -/
theorem process_withdraw_pda_recomputed_witness :
    process_withdraw (sampleWithdrawAccounts 1000 1000 999) 100 7 =
      process_withdraw (sampleWithdrawAccounts 1000 1000 0) 100 7 ∧
    (TokenInstruction.transfer 50 20 40
      (find_program_address escrowSeed 7).1 100).authority =
      (find_program_address escrowSeed 7).1 := by
  have h := process_withdraw_pda_recomputed
    (sampleWithdrawAccounts 1000 1000 0) 100 7 999
  refine ⟨h.1, ?_⟩
  exact h.2
    { instructions := [TokenInstruction.transfer 50 20 40
        (find_program_address escrowSeed 7).1 100],
      escrow_data := some (liveEscrow 900),
      escrow_lamports := 7,
      initializer_lamports := 5 } rfl _ (List.mem_singleton.mpr rfl)

/-- C4 counterexample: the claim says a live record never has
`deposited_amount = 0`, but Initialize never inspects the amount: a valid
Initialize call with amount 0 produces a reachable live record whose
`deposited_amount` is 0. -/
theorem reachable_zero_record_cex :
    ReachableRecord (liveEscrow 0) ∧
    (liveEscrow 0).is_initialized = true ∧
    (liveEscrow 0).deposited_amount = 0 := by
  refine ⟨?_, rfl, rfl⟩
  exact ReachableRecord.ofInit (sampleInitAccounts 0) 0 7
    ⟨liveEscrow 0, [TokenInstruction.setAuthority 50 20
      (find_program_address escrowSeed 7).1 10]⟩ rfl

/-- C4 (amended): across the two operations `deposited_amount` never
increases — the only operation that leaves a surviving record is a
partial Withdraw, which decreases it by the requested amount (a
zero-amount Withdraw leaves it unchanged) — and a record surviving a
Withdraw is live with strictly positive `deposited_amount`; the
never-zero-while-live property fails only for records created by an
Initialize whose instruction amount was 0. -/
theorem withdraw_record_monotone (accounts : WithdrawAccounts)
    (amount pid : Nat) (res : WithdrawResult) (r : Escrow)
    (hok : process_withdraw accounts amount pid = Except.ok res)
    (hsome : res.escrow_data = some r) :
    r.deposited_amount ≤ accounts.escrow_data.deposited_amount ∧
    0 < r.deposited_amount ∧ r.is_initialized = true := by
  simp only [process_withdraw] at hok
  split at hok
  · cases hok
  · split at hok
    · cases hok
    · rename_i hunp
      split at hok
      · cases hok
      · rename_i escrow_info heq
        split at hok
        · cases hok
        · split at hok
          · cases hok
          · split at hok
            · cases hok
            · split at hok
              · rename_i hlt
                injection hok with hok2
                rw [← hok2] at hsome
                simp only [Option.some.injEq] at hsome
                obtain ⟨he, hflag⟩ := Escrow_unpack_ok heq
                subst he
                rw [← hsome]
                refine ⟨Nat.sub_le _ _, Nat.sub_pos_of_lt hlt, hflag⟩
              · split at hok
                · cases hok
                · injection hok with hok2
                  rw [← hok2] at hsome
                  cases hsome

/-- C4 amended witness: the partial claim of 300 against deposited 1000
instantiated concretely: 700 ≤ 1000, 700 > 0, record still live. -/
theorem withdraw_record_monotone_witness :
    (liveEscrow 700).deposited_amount ≤
      (sampleWithdrawAccounts 1000 1000 0).escrow_data.deposited_amount ∧
    0 < (liveEscrow 700).deposited_amount ∧
    (liveEscrow 700).is_initialized = true := by
  exact withdraw_record_monotone (sampleWithdrawAccounts 1000 1000 0) 300 7
    ⟨[TokenInstruction.transfer 50 20 40
        (find_program_address escrowSeed 7).1 300],
      some (liveEscrow 700), 7, 5⟩ (liveEscrow 700) rfl rfl

end SolEscrow
